import Mathlib

/-!
Shallow embedding of the training entry point of the COMET repository
(file comet/cli/train.py, function train_command).

The function is modelled as a pure map from a parsed configuration tree
to the sequence of observable events it performs: seeding, callback
construction, driver (Trainer) construction, model-variant selection and
construction, warning-filter installation, the raised exception on the
no-variant path, and the final fit call.  Configuration values are an
abstract inductive type; namespaces carry their init_args as association
lists, mirroring namespace_to_dict.
-/

/-- An abstract configuration value (string, integer, boolean or null),
standing for the JSON-like values jsonargparse produces. -/
inductive ConfigValue
  | str (s : String)
  | int (n : Int)
  | bool (b : Bool)
  | null
  deriving DecidableEq, Repr

/-- The contents of a namespace's init_args, as produced by
namespace_to_dict: an association list from field name to value. -/
abbrev Args := List (String × ConfigValue)

/-- A parsed sub-configuration namespace with its init_args
(cfg.regression_metric, cfg.early_stopping, ... in train.py). -/
structure SubConfig where
  init_args : Args
  deriving DecidableEq, Repr

/-- The callbacks constructed by train_command (lines 67-74):
ModelCheckpoint and EarlyStopping from their namespaces' init_args, and
LearningRateMonitor from its logging_interval argument. -/
inductive Callback
  | earlyStopping (init_args : Args)
  | modelCheckpoint (init_args : Args)
  | learningRateMonitor (logging_interval : String)
  deriving DecidableEq, Repr

/-- A value stored in the trainer argument dictionary: either a
user-supplied configuration value or a list of callback objects (the
value assigned to the callbacks key at line 75). -/
inductive DictValue
  | user (v : ConfigValue)
  | callbackList (cs : List Callback)
  deriving DecidableEq, Repr

/-- The Python dict namespace_to_dict(cfg.trainer.init_args), modelled as
an association list with unique-key dict semantics for update/lookup. -/
abbrev TrainerDict := List (String × DictValue)

/-- The parsed trainer namespace (cfg.trainer in train.py). -/
structure TrainerSubConfig where
  init_args : TrainerDict
  deriving DecidableEq, Repr

/-- The five model variants, in the textual order of train.py's
imports and elif chain. -/
inductive Variant
  | regression
  | referencelessRegression
  | ranking
  | unite
  | cspec
  deriving DecidableEq, Repr

/-- The parsed configuration tree produced by parser.parse_args()
(line 64): one field per argument/namespace added to the parser at
lines 46-63.  Each of the five variant namespaces is optional (None when
the sub-configuration is absent). -/
structure Config where
  seed_everything : Int
  model : Args
  regression_metric : Option SubConfig
  referenceless_regression_metric : Option SubConfig
  ranking_metric : Option SubConfig
  unite_metric : Option SubConfig
  cspec_metric : Option SubConfig
  early_stopping : SubConfig
  model_checkpoint : SubConfig
  trainer : TrainerSubConfig
  deriving DecidableEq, Repr

/-- The observable events of a run of train_command, in program order. -/
inductive Event
  | parseArgs
  | seed (n : Int)
  | constructCallback (c : Callback)
  | printText (s : String)
  | printTrainerConfig (d : TrainerDict)
  | printModelConfig (a : Args)
  | constructTrainer (d : TrainerDict)
  | constructModel (v : Variant) (a : Args)
  | raiseError (msg : String)
  | installWarningFilter (category : String) (message : String)
  | fitCall
  deriving DecidableEq, Repr

/-- Python dict lookup d[k] (as an Option). -/
def dictGet (d : TrainerDict) (k : String) : Option DictValue :=
  match d.find? (fun p => p.1 == k) with
  | some p => some p.2
  | none => none

/-- Python dict assignment d[k] = v: if the key is present its binding is
replaced in place (keys of a Python dict are unique, so at most one
binding exists), otherwise the new binding is appended at the end. -/
def dictSet (d : TrainerDict) (k : String) (v : DictValue) : TrainerDict :=
  match d with
  | [] => [(k, v)]
  | hd :: tl => if hd.1 == k then (k, v) :: tl else hd :: dictSet tl k v

/-- The callback list assigned to trainer_args at line 75:
[early_stop_callback, checkpoint_callback, lr_monitor]. -/
def assembledCallbacks (cfg : Config) : List Callback :=
  [Callback.earlyStopping cfg.early_stopping.init_args,
   Callback.modelCheckpoint cfg.model_checkpoint.init_args,
   Callback.learningRateMonitor "step"]

/-- The trainer argument dictionary after line 75: the user's
cfg.trainer.init_args with its callbacks key overwritten by the
assembled callback list. -/
def trainerArgs (cfg : Config) : TrainerDict :=
  dictSet cfg.trainer.init_args "callbacks"
    (DictValue.callbackList (assembledCallbacks cfg))

/-- The elif chain at lines 81-121 of train.py: the first variant
namespace that is not None determines the model; None when all five are
absent (the raise branch). -/
def modelSelection (cfg : Config) : Option (Variant × SubConfig) :=
  match cfg.regression_metric with
  | some sub => some (Variant.regression, sub)
  | none =>
    match cfg.referenceless_regression_metric with
    | some sub => some (Variant.referencelessRegression, sub)
    | none =>
      match cfg.ranking_metric with
      | some sub => some (Variant.ranking, sub)
      | none =>
        match cfg.unite_metric with
        | some sub => some (Variant.unite, sub)
        | none =>
          match cfg.cspec_metric with
          | some sub => some (Variant.cspec, sub)
          | none => none

/-- The message pattern of the suppressed data-loader worker-count
warning (lines 126-130). -/
def numWorkersWarning : String :=
  ".*Consider increasing the value of the `num_workers` argument` .*"

/-- The event trace of one run of train_command on a parsed
configuration, following train.py lines 64-131 in program order.  The
raise at line 121 aborts the run, so nothing follows the raiseError
event on the no-variant path. -/
def train_command (cfg : Config) : List Event :=
  [Event.parseArgs,
   Event.seed cfg.seed_everything,
   Event.constructCallback (Callback.modelCheckpoint cfg.model_checkpoint.init_args),
   Event.constructCallback (Callback.earlyStopping cfg.early_stopping.init_args),
   Event.constructCallback (Callback.learningRateMonitor "step"),
   Event.printText "TRAINER ARGUMENTS: ",
   Event.printTrainerConfig (trainerArgs cfg),
   Event.constructTrainer (trainerArgs cfg),
   Event.printText "MODEL ARGUMENTS: "] ++
  match modelSelection cfg with
  | some (v, sub) =>
      [Event.printModelConfig sub.init_args,
       Event.constructModel v sub.init_args,
       Event.installWarningFilter "UserWarning" numWorkersWarning,
       Event.fitCall]
  | none => [Event.raiseError "Model configurations missing!"]

/-- Resolution of the seed value by the argument parser.  The
--seed_everything argument is declared with default 12 (train.py lines
46-51); the --cfg action (line 52) merges a configuration file before
CLI overrides, so an explicit CLI flag wins over a config-file value,
which wins over the declared default. -/
def resolveSeed (cliSeed : Option Int) (fileSeed : Option Int) : Int :=
  match cliSeed with
  | some n => n
  | none =>
    match fileSeed with
    | some n => n
    | none => 12

/-- The variant namespace field of the configuration associated with
each variant. -/
def variantConfig (cfg : Config) : Variant → Option SubConfig
  | Variant.regression => cfg.regression_metric
  | Variant.referencelessRegression => cfg.referenceless_regression_metric
  | Variant.ranking => cfg.ranking_metric
  | Variant.unite => cfg.unite_metric
  | Variant.cspec => cfg.cspec_metric

/-- The fixed selection priority order of the spec. -/
def priorityOrder : List Variant :=
  [Variant.regression, Variant.referencelessRegression, Variant.ranking,
   Variant.unite, Variant.cspec]

/-- Stated from the spec's words, for comparison with modelSelection:
scan the variants in priority order and pick the first whose
sub-configuration is present. -/
def specFirstPresentVariant (cfg : Config) : Option Variant :=
  priorityOrder.find? (fun v => (variantConfig cfg v).isSome)

/-- True when at least one of the five variant sub-configurations is
present. -/
def hasVariant (cfg : Config) : Bool :=
  cfg.regression_metric.isSome ||
  cfg.referenceless_regression_metric.isSome ||
  cfg.ranking_metric.isSome ||
  cfg.unite_metric.isSome ||
  cfg.cspec_metric.isSome

/-- Event classifiers used by the temporal claims. -/
def isConstructCallbackEvent : Event → Bool
  | Event.constructCallback _ => true
  | _ => false

def isConstructTrainerEvent : Event → Bool
  | Event.constructTrainer _ => true
  | _ => false

def isConstructModelEvent : Event → Bool
  | Event.constructModel _ _ => true
  | _ => false

/-- Any constructor invocation: callback, trainer or model. -/
def isConstructorEvent (e : Event) : Bool :=
  isConstructCallbackEvent e || isConstructTrainerEvent e || isConstructModelEvent e

def isSeedEvent : Event → Bool
  | Event.seed _ => true
  | _ => false

def isRaiseEvent : Event → Bool
  | Event.raiseError _ => true
  | _ => false

def isInstallFilterEvent : Event → Bool
  | Event.installWarningFilter _ _ => true
  | _ => false

def isFitEvent : Event → Bool
  | Event.fitCall => true
  | _ => false

/-- A learning-rate-monitor construction event. -/
def isLRMonitorEvent : Event → Bool
  | Event.constructCallback (Callback.learningRateMonitor _) => true
  | _ => false

/-- The keys of a trainer dictionary are pairwise distinct (always true
of a dictionary produced by namespace_to_dict). -/
def nodupKeys (d : TrainerDict) : Prop :=
  (d.map Prod.fst).Nodup

/-- The orchestration phases of the spec, used to state ordering. -/
inductive Phase
  | resolution
  | callbackConstruction
  | driverConstruction
  | modelConstruction
  deriving DecidableEq, Repr

/-- The phase an event belongs to (none for events outside the four
phases of the ordering claim). -/
def phaseOf : Event → Option Phase
  | Event.parseArgs => some Phase.resolution
  | Event.constructCallback _ => some Phase.callbackConstruction
  | Event.constructTrainer _ => some Phase.driverConstruction
  | Event.constructModel _ _ => some Phase.modelConstruction
  | _ => none

/-! ### Helper lemmas about dictionary update and the selection chain -/

theorem dictGet_dictSet_self (d : TrainerDict) (k : String) (v : DictValue) :
    dictGet (dictSet d k v) k = some v := by
  induction d with
  | nil => simp [dictSet, dictGet]
  | cons hd tl ih =>
    by_cases h1 : hd.1 = k
    · have hb : (hd.1 == k) = true := beq_iff_eq.mpr h1
      simp [dictSet, dictGet, hb]
    · have hb : (hd.1 == k) = false := beq_eq_false_iff_ne.mpr h1
      have hfind : List.find? (fun q => q.1 == k) (hd :: dictSet tl k v)
          = List.find? (fun q => q.1 == k) (dictSet tl k v) :=
        List.find?_cons_of_neg _ (by simp [hb])
      calc dictGet (dictSet (hd :: tl) k v) k
          = dictGet (hd :: dictSet tl k v) k := by simp [dictSet, hb]
        _ = dictGet (dictSet tl k v) k := by rw [dictGet, dictGet, hfind]
        _ = some v := ih

theorem dictGet_dictSet_other (d : TrainerDict) (k k2 : String) (v : DictValue)
    (h : k2 ≠ k) : dictGet (dictSet d k v) k2 = dictGet d k2 := by
  have hkk : (k == k2) = false := beq_eq_false_iff_ne.mpr (Ne.symm h)
  induction d with
  | nil => simp [dictSet, dictGet, hkk]
  | cons hd tl ih =>
    by_cases h1 : hd.1 = k
    · have hb : (hd.1 == k) = true := beq_iff_eq.mpr h1
      have hb2 : (hd.1 == k2) = false := beq_eq_false_iff_ne.mpr (h1 ▸ Ne.symm h)
      simp [dictSet, dictGet, hb, hkk, hb2]
    · have hb : (hd.1 == k) = false := beq_eq_false_iff_ne.mpr h1
      by_cases h2 : hd.1 = k2
      · have hb2 : (hd.1 == k2) = true := beq_iff_eq.mpr h2
        simp [dictSet, dictGet, hb, hb2]
      · have hb2 : (hd.1 == k2) = false := beq_eq_false_iff_ne.mpr h2
        have hfind : List.find? (fun q => q.1 == k2) (hd :: dictSet tl k v)
            = List.find? (fun q => q.1 == k2) (dictSet tl k v) :=
          List.find?_cons_of_neg _ (by simp [hb2])
        have hfind2 : List.find? (fun q => q.1 == k2) (hd :: tl)
            = List.find? (fun q => q.1 == k2) tl :=
          List.find?_cons_of_neg _ (by simp [hb2])
        calc dictGet (dictSet (hd :: tl) k v) k2
            = dictGet (hd :: dictSet tl k v) k2 := by simp [dictSet, hb]
          _ = dictGet (dictSet tl k v) k2 := by rw [dictGet, dictGet, hfind]
          _ = dictGet tl k2 := ih
          _ = dictGet (hd :: tl) k2 := by rw [dictGet, dictGet, hfind2]

theorem countP_key_eq_zero (d : TrainerDict) (k : String)
    (h : ∀ p ∈ d, p.1 ≠ k) : d.countP (fun p => p.1 == k) = 0 := by
  induction d with
  | nil => simp
  | cons hd tl ih =>
    have hb : (hd.1 == k) = false := beq_eq_false_iff_ne.mpr (h hd (by simp))
    rw [List.countP_cons, hb]
    simpa using ih (fun p hp => h p (by simp [hp]))

theorem countP_dictSet_self (d : TrainerDict) (k : String) (v : DictValue)
    (h : nodupKeys d) : (dictSet d k v).countP (fun p => p.1 == k) = 1 := by
  induction d with
  | nil => simp [dictSet]
  | cons hd tl ih =>
    rw [nodupKeys, List.map_cons, List.nodup_cons] at h
    by_cases h1 : hd.1 = k
    · have hb : (hd.1 == k) = true := beq_iff_eq.mpr h1
      have hz : tl.countP (fun p => p.1 == k) = 0 := by
        refine countP_key_eq_zero tl k (fun p hp he => ?_)
        exact h.1 (h1 ▸ he ▸ List.mem_map_of_mem Prod.fst hp)
      simp [dictSet, hb, List.countP_cons, hz]
    · have hb : (hd.1 == k) = false := beq_eq_false_iff_ne.mpr h1
      have htl := ih h.2
      simp [dictSet, hb, List.countP_cons, htl]

theorem train_command_of_some (cfg : Config) (v : Variant) (sub : SubConfig)
    (h : modelSelection cfg = some (v, sub)) :
    train_command cfg =
      [Event.parseArgs,
       Event.seed cfg.seed_everything,
       Event.constructCallback (Callback.modelCheckpoint cfg.model_checkpoint.init_args),
       Event.constructCallback (Callback.earlyStopping cfg.early_stopping.init_args),
       Event.constructCallback (Callback.learningRateMonitor "step"),
       Event.printText "TRAINER ARGUMENTS: ",
       Event.printTrainerConfig (trainerArgs cfg),
       Event.constructTrainer (trainerArgs cfg),
       Event.printText "MODEL ARGUMENTS: ",
       Event.printModelConfig sub.init_args,
       Event.constructModel v sub.init_args,
       Event.installWarningFilter "UserWarning" numWorkersWarning,
       Event.fitCall] := by
  simp [train_command, h]

theorem train_command_of_none (cfg : Config)
    (h : modelSelection cfg = none) :
    train_command cfg =
      [Event.parseArgs,
       Event.seed cfg.seed_everything,
       Event.constructCallback (Callback.modelCheckpoint cfg.model_checkpoint.init_args),
       Event.constructCallback (Callback.earlyStopping cfg.early_stopping.init_args),
       Event.constructCallback (Callback.learningRateMonitor "step"),
       Event.printText "TRAINER ARGUMENTS: ",
       Event.printTrainerConfig (trainerArgs cfg),
       Event.constructTrainer (trainerArgs cfg),
       Event.printText "MODEL ARGUMENTS: ",
       Event.raiseError "Model configurations missing!"] := by
  simp [train_command, h]

theorem modelSelection_eq_none_iff (cfg : Config) :
    modelSelection cfg = none ↔ hasVariant cfg = false := by
  rcases cfg with ⟨se, mo, rm, rr, rk, um, cm, es, mc, tr⟩
  cases rm <;> cases rr <;> cases rk <;> cases um <;> cases cm <;>
    simp [modelSelection, hasVariant]

theorem modelSelection_isSome_iff (cfg : Config) :
    (modelSelection cfg).isSome = hasVariant cfg := by
  rcases cfg with ⟨se, mo, rm, rr, rk, um, cm, es, mc, tr⟩
  cases rm <;> cases rr <;> cases rk <;> cases um <;> cases cm <;>
    simp [modelSelection, hasVariant]

theorem specFirstPresentVariant_eq (cfg : Config) :
    specFirstPresentVariant cfg = (modelSelection cfg).map Prod.fst := by
  rcases cfg with ⟨se, mo, rm, rr, rk, um, cm, es, mc, tr⟩
  cases rm <;> cases rr <;> cases rk <;> cases um <;> cases cm <;>
    simp [modelSelection, specFirstPresentVariant, priorityOrder,
      variantConfig, List.find?]

theorem variantConfig_modelSelection (cfg : Config) :
    ∀ p ∈ modelSelection cfg, variantConfig cfg p.1 = some p.2 := by
  rcases cfg with ⟨se, mo, rm, rr, rk, um, cm, es, mc, tr⟩
  cases rm <;> cases rr <;> cases rk <;> cases um <;> cases cm <;>
    simp [modelSelection, variantConfig]

/-! ### Concrete configurations used as witnesses and counterexamples -/

/-- A namespace with empty init_args. -/
def emptySub : SubConfig := ⟨[]⟩

/-- A parsed configuration in which all five variant sub-configurations
are absent. -/
def cfgNoVariant : Config :=
  ⟨12, [], none, none, none, none, none, emptySub, emptySub, ⟨[]⟩⟩

/-- A parsed configuration in which both the ranking and the cspec
variant sub-configurations are present, and whose trainer namespace
already carries a user-supplied callbacks entry. -/
def cfgRankingAndCspec : Config :=
  ⟨12, [],
   none, none,
   some ⟨[("margin", ConfigValue.str "0.5")]⟩,
   none,
   some ⟨[]⟩,
   emptySub, emptySub,
   ⟨[("max_epochs", DictValue.user (ConfigValue.int 10)),
     ("callbacks", DictValue.user ConfigValue.null)]⟩⟩

/-! ### The claims -/

/-- Claim C1: for every parsed configuration with at least one variant
sub-configuration present, the model constructed by train_command is of
the variant earliest in the fixed priority order (regression,
referenceless regression, ranking, unite, cspec) whose
sub-configuration is present; exactly one model-constructor event
occurs, and the run raises no error (later non-empty
sub-configurations are ignored rather than rejected). -/
theorem claim_C1_first_match (cfg : Config) (h : hasVariant cfg = true) :
    ∃ v sub,
      specFirstPresentVariant cfg = some v ∧
      variantConfig cfg v = some sub ∧
      (train_command cfg).filter isConstructModelEvent
        = [Event.constructModel v sub.init_args] ∧
      (train_command cfg).any isRaiseEvent = false := by
  obtain ⟨⟨v, sub⟩, hsel⟩ : ∃ p, modelSelection cfg = some p := by
    have hs := modelSelection_isSome_iff cfg
    rw [h] at hs
    exact Option.isSome_iff_exists.mp hs
  refine ⟨v, sub, ?_, ?_, ?_, ?_⟩
  · rw [specFirstPresentVariant_eq, hsel]; rfl
  · exact variantConfig_modelSelection cfg (v, sub) (Option.mem_def.mpr hsel)
  · rw [train_command_of_some cfg v sub hsel]
    simp [isConstructModelEvent]
  · rw [train_command_of_some cfg v sub hsel]
    simp [isRaiseEvent]

theorem claim_C1_witness :
    hasVariant cfgRankingAndCspec = true ∧
    ∃ v sub,
      specFirstPresentVariant cfgRankingAndCspec = some v ∧
      variantConfig cfgRankingAndCspec v = some sub ∧
      (train_command cfgRankingAndCspec).filter isConstructModelEvent
        = [Event.constructModel v sub.init_args] ∧
      (train_command cfgRankingAndCspec).any isRaiseEvent = false :=
  ⟨by rfl, claim_C1_first_match cfgRankingAndCspec (by rfl)⟩

/-- Claim C2 as stated is false on the code: on a configuration with all
five variant sub-configurations absent, the raised message is
"Model configurations missing!" rather than "Model configurations
missing", and the driver and the callbacks are constructed before the
failure. -/
theorem claim_C2_counterexample :
    ((train_command cfgNoVariant).any
        (fun e => e == Event.raiseError "Model configurations missing")) = false ∧
    ((train_command cfgNoVariant).any isConstructTrainerEvent) = true ∧
    ((train_command cfgNoVariant).any isConstructCallbackEvent) = true := by
  decide

/-- Claim C2 amended: for every parsed configuration in which all five
variant sub-configurations are empty, train_command fails with an error
whose message is "Model configurations missing!", no model is
constructed and fit is never invoked, but the three callbacks and the
driver are constructed before the failure. -/
theorem claim_C2_amended_failure (cfg : Config) (h : hasVariant cfg = false) :
    (train_command cfg).filter
        (fun e => isConstructorEvent e || isRaiseEvent e || isFitEvent e)
      = [Event.constructCallback (Callback.modelCheckpoint cfg.model_checkpoint.init_args),
         Event.constructCallback (Callback.earlyStopping cfg.early_stopping.init_args),
         Event.constructCallback (Callback.learningRateMonitor "step"),
         Event.constructTrainer (trainerArgs cfg),
         Event.raiseError "Model configurations missing!"] := by
  have hsel := (modelSelection_eq_none_iff cfg).mpr h
  rw [train_command_of_none cfg hsel]
  simp [isConstructorEvent, isConstructCallbackEvent, isConstructTrainerEvent,
    isConstructModelEvent, isRaiseEvent, isFitEvent]

theorem claim_C2_witness :
    hasVariant cfgNoVariant = false ∧
    (train_command cfgNoVariant).filter
        (fun e => isConstructorEvent e || isRaiseEvent e || isFitEvent e)
      = [Event.constructCallback (Callback.modelCheckpoint cfgNoVariant.model_checkpoint.init_args),
         Event.constructCallback (Callback.earlyStopping cfgNoVariant.early_stopping.init_args),
         Event.constructCallback (Callback.learningRateMonitor "step"),
         Event.constructTrainer (trainerArgs cfgNoVariant),
         Event.raiseError "Model configurations missing!"] :=
  ⟨by rfl, claim_C2_amended_failure cfgNoVariant (by rfl)⟩

/-- Claim C3: for every parsed configuration whose trainer namespace has
pairwise-distinct keys (as any Python dict has), including one that
already contains a callbacks entry, the mapping passed to the driver
constructor binds the callbacks key to exactly the 3 assembled
callbacks: the user-supplied value is overwritten, and the key occurs
exactly once, never appended to or duplicated. -/
theorem claim_C3_callbacks_overwritten (cfg : Config)
    (h : nodupKeys cfg.trainer.init_args) :
    dictGet (trainerArgs cfg) "callbacks"
      = some (DictValue.callbackList (assembledCallbacks cfg)) ∧
    (assembledCallbacks cfg).length = 3 ∧
    (trainerArgs cfg).countP (fun p => p.1 == "callbacks") = 1 :=
  ⟨dictGet_dictSet_self _ _ _, rfl, countP_dictSet_self _ _ _ h⟩

theorem claim_C3_witness :
    nodupKeys cfgRankingAndCspec.trainer.init_args ∧
    (dictGet (trainerArgs cfgRankingAndCspec) "callbacks"
      = some (DictValue.callbackList (assembledCallbacks cfgRankingAndCspec)) ∧
    (assembledCallbacks cfgRankingAndCspec).length = 3 ∧
    (trainerArgs cfgRankingAndCspec).countP (fun p => p.1 == "callbacks") = 1) :=
  ⟨by unfold nodupKeys; decide,
   claim_C3_callbacks_overwritten cfgRankingAndCspec (by unfold nodupKeys; decide)⟩

/-- Claim C4: for every parsed configuration, the driver is constructed
with a callbacks list of length exactly 3, in the order EarlyStopping,
ModelCheckpoint, LearningRateMonitor, whatever the rest of the
configuration holds. -/
theorem claim_C4_callback_list_order (cfg : Config) :
    ∃ d, Event.constructTrainer d ∈ train_command cfg ∧
      dictGet d "callbacks" = some (DictValue.callbackList
        [Callback.earlyStopping cfg.early_stopping.init_args,
         Callback.modelCheckpoint cfg.model_checkpoint.init_args,
         Callback.learningRateMonitor "step"]) ∧
      ([Callback.earlyStopping cfg.early_stopping.init_args,
        Callback.modelCheckpoint cfg.model_checkpoint.init_args,
        Callback.learningRateMonitor "step"] : List Callback).length = 3 := by
  refine ⟨trainerArgs cfg, ?_, dictGet_dictSet_self _ _ _, rfl⟩
  cases hsel : modelSelection cfg with
  | none =>
    rw [train_command_of_none cfg hsel]
    simp
  | some p =>
    obtain ⟨v, sub⟩ := p
    rw [train_command_of_some cfg v sub hsel]
    simp

/-- Claim C5: in every run, the phases occur in the order configuration
resolution, callback construction (three events), driver construction,
then model construction (present exactly when a variant is selected);
in particular the driver is fully constructed before any model
constructor runs. -/
theorem claim_C5_phase_order (cfg : Config) :
    (train_command cfg).filterMap phaseOf
      = [Phase.resolution, Phase.callbackConstruction, Phase.callbackConstruction,
         Phase.callbackConstruction, Phase.driverConstruction]
        ++ (if (modelSelection cfg).isSome then [Phase.modelConstruction] else []) := by
  cases hsel : modelSelection cfg with
  | none =>
    rw [train_command_of_none cfg hsel]
    simp [phaseOf, hsel]
  | some p =>
    obtain ⟨v, sub⟩ := p
    rw [train_command_of_some cfg v sub hsel]
    simp [phaseOf, hsel]

/-- Claim C6: in every run, the process-wide random state is seeded with
the resolved seed value exactly once, and no callback, driver or model
constructor event occurs before the seed event. -/
theorem claim_C6_seed_before_constructors (cfg : Config) :
    ((train_command cfg).takeWhile (fun e => !isSeedEvent e)).all
        (fun e => !isConstructorEvent e) = true ∧
    Event.seed cfg.seed_everything ∈ train_command cfg ∧
    (train_command cfg).countP isSeedEvent = 1 := by
  cases hsel : modelSelection cfg with
  | none =>
    rw [train_command_of_none cfg hsel]
    refine ⟨by simp [isSeedEvent, isConstructorEvent, isConstructCallbackEvent,
      isConstructTrainerEvent, isConstructModelEvent], by simp, ?_⟩
    simp [isSeedEvent, List.countP_cons]
  | some p =>
    obtain ⟨v, sub⟩ := p
    rw [train_command_of_some cfg v sub hsel]
    refine ⟨by simp [isSeedEvent, isConstructorEvent, isConstructCallbackEvent,
      isConstructTrainerEvent, isConstructModelEvent], by simp, ?_⟩
    simp [isSeedEvent, List.countP_cons]

/-- Claim C7 as stated is false on the code: invoking the command with
no --seed_everything flag on the command line but a configuration file
that sets seed_everything to 42 resolves the seed to 42, not 12. -/
theorem claim_C7_counterexample :
    resolveSeed none (some 42) = 42 ∧ ¬ resolveSeed none (some 42) = 12 := by
  decide

/-- Claim C7 amended: when the --seed_everything flag is absent from the
CLI input and the configuration file does not set seed_everything, the
resolved seed equals the declared default 12. -/
theorem claim_C7_default_seed : resolveSeed none none = 12 := rfl

/-- Claim C8: in every run, exactly one LearningRateMonitor callback is
constructed, and its logging interval is the constant "step"; the
right-hand side does not depend on the configuration, so no field of
this callback comes from user input. -/
theorem claim_C8_lr_monitor_fixed (cfg : Config) :
    (train_command cfg).filter isLRMonitorEvent
      = [Event.constructCallback (Callback.learningRateMonitor "step")] := by
  cases hsel : modelSelection cfg with
  | none =>
    rw [train_command_of_none cfg hsel]
    simp [isLRMonitorEvent]
  | some p =>
    obtain ⟨v, sub⟩ := p
    rw [train_command_of_some cfg v sub hsel]
    simp [isLRMonitorEvent]

/-- Claim C9: for every parsed configuration, every key of the user's
trainer init_args other than callbacks is passed to the driver
constructor with its value unchanged; only the callbacks entry is
replaced by the assembly step. -/
theorem claim_C9_other_keys_unchanged (cfg : Config) (k : String)
    (h : k ≠ "callbacks") :
    dictGet (trainerArgs cfg) k = dictGet cfg.trainer.init_args k :=
  dictGet_dictSet_other _ _ _ _ h

theorem claim_C9_witness :
    ("max_epochs" : String) ≠ "callbacks" ∧
    dictGet (trainerArgs cfgRankingAndCspec) "max_epochs"
      = dictGet cfgRankingAndCspec.trainer.init_args "max_epochs" :=
  ⟨by decide, claim_C9_other_keys_unchanged cfgRankingAndCspec "max_epochs" (by decide)⟩

/-- Claim C10: among constructor events, warning-filter installations
and raises, every run produces the three callback constructions and the
driver construction first; when a variant is selected the model
construction follows and the warning filter is installed only after it,
and on the no-variant path no warning filter is ever installed. -/
theorem claim_C10_filter_after_model (cfg : Config) :
    (train_command cfg).filter
        (fun e => isConstructorEvent e || isInstallFilterEvent e || isRaiseEvent e)
      = [Event.constructCallback (Callback.modelCheckpoint cfg.model_checkpoint.init_args),
         Event.constructCallback (Callback.earlyStopping cfg.early_stopping.init_args),
         Event.constructCallback (Callback.learningRateMonitor "step"),
         Event.constructTrainer (trainerArgs cfg)] ++
        (match modelSelection cfg with
         | some (v, sub) =>
             [Event.constructModel v sub.init_args,
              Event.installWarningFilter "UserWarning" numWorkersWarning]
         | none => [Event.raiseError "Model configurations missing!"]) := by
  cases hsel : modelSelection cfg with
  | none =>
    rw [train_command_of_none cfg hsel]
    simp [isConstructorEvent, isConstructCallbackEvent, isConstructTrainerEvent,
      isConstructModelEvent, isInstallFilterEvent, isRaiseEvent]
  | some p =>
    obtain ⟨v, sub⟩ := p
    rw [train_command_of_some cfg v sub hsel]
    simp [isConstructorEvent, isConstructCallbackEvent, isConstructTrainerEvent,
      isConstructModelEvent, isInstallFilterEvent, isRaiseEvent]
